import Mathlib

/-!
Shallow embedding of `src/app.py` (demo-maquette): a synthetic-sensor
dashboard whose logical core is a signal generator (`generate_fake_data`)
and a threshold/alarm evaluator (the vibration-ML logic inside
`create_page_layout`).

Randomness is modelled by explicit draw functions `ℕ → ℚ` passed to the
generator: `tempSin i` stands for `sin(2π i / 24)`, the three noise
functions for `np.random.normal` draws, and `udraw j` for the j-th entry
of `np.random.uniform(0.2, 0.8, 10)` (whose documented range is the
half-open interval `[0.2, 0.8)`).
-/

namespace DemoMaquette

/-- Threshold limits defined at module top level of `src/app.py`. -/
def TEMP_LIMIT : ℚ := 80

/-- ISO vibration limit (mm/s). -/
def VIB_ISO_LIMIT : ℚ := 7.1

/-- ML vibration limit (mm/s), the alarm limit for vibration-B. -/
def VIB_ML_LIMIT : ℚ := 5.0

/-- Number of timestamps produced by `pd.date_range(start, end, freq='H')`
when both endpoints are midnights, `startDays` and `endDays` days from a
common origin: one sample per hourly step, endpoints inclusive. -/
def dateRangeHourlyLen (startDays endDays : ℕ) : ℕ :=
  (endDays - startDays) * 24 + 1

/-- Length of `pd.date_range(start='2023-01-01', end='2023-01-31', freq='H')`:
2023-01-31 is 30 days after 2023-01-01. -/
def numDates : ℕ := dateRangeHourlyLen 0 30

/-- `np.clip(x, lo, hi) = np.minimum(hi, np.maximum(x, lo))`. -/
def clip (x lo hi : ℚ) : ℚ := min (max x lo) hi

/-- The three channel columns of the dataframe built by `generate_fake_data`
(the `Date` column is determined by the fixed range and carries no data). -/
structure FakeData where
  temperature : List ℚ
  vib_iso : List ℚ
  vib_ml : List ℚ
deriving Repr, DecidableEq

/-- Embedding of `generate_fake_data` from `src/app.py`.

Temperature: `45 + 5*sin(2π i/24) + normal(0,2)`, no clipping.
Vibration ISO: `4.5 + normal(0,0.3)` clipped to `[3.5, 6.5]`.
Vibration ML: `3.8 + normal(0,0.25)` clipped to `[3.0, 4.8]` for all but
the last 10 samples; the last 10 samples are overwritten with
`VIB_ML_LIMIT + uniform(0.2, 0.8)`, one independent draw each
(the normal draws at those positions are discarded by the overwrite, so
they do not appear). -/
def generate_fake_data (tempSin tempNoise isoNoise mlNoise udraw : ℕ → ℚ) :
    FakeData :=
  let n := numDates
  { temperature := (List.range n).map (fun i => 45 + 5 * tempSin i + tempNoise i)
    vib_iso := (List.range n).map (fun i => clip (4.5 + isoNoise i) 3.5 6.5)
    vib_ml :=
      ((List.range (n - 10)).map (fun i => clip (3.8 + mlNoise i) 3.0 4.8))
        ++ ((List.range 10).map (fun j => VIB_ML_LIMIT + udraw j)) }

/-- Per-sample breach flags: `df['Above_Threshold'] = df['Vibration ML (mm/s)'] > VIB_ML_LIMIT`
(line 80 of `src/app.py`), strict comparison. -/
def above_threshold (vib_ml : List ℚ) (limit : ℚ) : List Bool :=
  vib_ml.map (fun x => decide (limit < x))

/-- Trailing window `flags.iloc[-window:]`: the last `window` elements,
the whole list when it is shorter than `window`. -/
def trailingWindow (flags : List Bool) (window : ℕ) : List Bool :=
  flags.drop (flags.length - window)

/-- Output of the alarm evaluation in `create_page_layout` (lines 80,
104-119 of `src/app.py`): the flag column, the aggregate alarm
(`flags.iloc[-10:].any()`), the breach count (`flags.iloc[-10:].sum()`),
the most recent reading (`.iloc[-1]`, absent on an empty series) and its
distance above the limit. -/
structure AlarmResult where
  flags : List Bool
  is_alarm : Bool
  breach_count : ℕ
  last_value : Option ℚ
  delta_over_limit : Option ℚ
deriving Repr, DecidableEq

/-- Embedding of the threshold/alarm evaluation of `create_page_layout`. -/
def evaluate_alarm (vib_ml : List ℚ) (limit : ℚ) (window : ℕ) : AlarmResult :=
  let flags := above_threshold vib_ml limit
  let recent := trailingWindow flags window
  { flags := flags
    is_alarm := recent.any id
    breach_count := (recent.filter id).length
    last_value := vib_ml.getLast?
    delta_over_limit := vib_ml.getLast?.map (fun v => v - limit) }

/-- The three equipment pages (`pages = ['Motor 1', 'Conveyor 1', 'Motor 2']`). -/
def pages : List String := ["Motor 1", "Conveyor 1", "Motor 2"]

/-- In `src/app.py` the dataframe is produced by `generate_fake_data()` with
no dependence on `selected_page`; the page is an opaque selector. -/
def page_series (_page : String) (tempSin tempNoise isoNoise mlNoise udraw : ℕ → ℚ) :
    FakeData :=
  generate_fake_data tempSin tempNoise isoNoise mlNoise udraw

/-- The fixed injected tail of the spec scenario. -/
def injectedTail : List ℚ := [5.1, 5.3, 4.9, 5.5, 5.0, 5.2, 4.95, 5.6, 5.05, 5.4]

/-- The flags the spec expects for `injectedTail` at limit 5.0. -/
def expectedFlags : List Bool :=
  [true, true, false, true, false, true, false, true, true, true]

/-- The all-zero draw function, used to instantiate witness runs. -/
def zfun : ℕ → ℚ := fun _ => 0

/-! Helper lemmas shared by the claims. -/

theorem clip_bounds (x lo hi : ℚ) (h : lo ≤ hi) :
    lo ≤ clip x lo hi ∧ clip x lo hi ≤ hi :=
  ⟨le_min (le_max_right x lo) h, min_le_right _ _⟩

theorem above_threshold_append (a b : List ℚ) (limit : ℚ) :
    above_threshold (a ++ b) limit =
      above_threshold a limit ++ above_threshold b limit :=
  List.map_append _ _ _

theorem length_above_threshold (l : List ℚ) (limit : ℚ) :
    (above_threshold l limit).length = l.length :=
  List.length_map _ _

theorem trailingWindow_append (a b : List Bool) (w : ℕ) (hb : b.length = w) :
    trailingWindow (a ++ b) w = b := by
  unfold trailingWindow
  rw [List.length_append, hb, Nat.add_sub_cancel]
  exact List.drop_left a b

theorem injectedTail_flags :
    above_threshold injectedTail VIB_ML_LIMIT = expectedFlags := by
  norm_num [above_threshold, injectedTail, expectedFlags, VIB_ML_LIMIT]

/-- C1: for a series whose last 10 Vibration-B readings are the fixed values
`[5.1, 5.3, 4.9, 5.5, 5.0, 5.2, 4.95, 5.6, 5.05, 5.4]` with limit 5.0, the
evaluator's flags over those 10 samples are `[T,T,F,T,F,T,F,T,T,T]`,
`breach_count = 7`, `is_alarm = true`, and
`delta_over_limit = last_value - 5.0 = 0.4`. -/
theorem C1_fixed_tail_scenario (p : List ℚ) :
    trailingWindow (evaluate_alarm (p ++ injectedTail) VIB_ML_LIMIT 10).flags 10
        = expectedFlags ∧
    (evaluate_alarm (p ++ injectedTail) VIB_ML_LIMIT 10).breach_count = 7 ∧
    (evaluate_alarm (p ++ injectedTail) VIB_ML_LIMIT 10).is_alarm = true ∧
    (evaluate_alarm (p ++ injectedTail) VIB_ML_LIMIT 10).last_value = some 5.4 ∧
    (evaluate_alarm (p ++ injectedTail) VIB_ML_LIMIT 10).delta_over_limit
        = some 0.4 := by
  have hlen : (above_threshold injectedTail VIB_ML_LIMIT).length = 10 := by
    rw [length_above_threshold]; rfl
  have hwin : trailingWindow (above_threshold (p ++ injectedTail) VIB_ML_LIMIT) 10
      = expectedFlags := by
    rw [above_threshold_append, trailingWindow_append _ _ _ hlen, injectedTail_flags]
  have hlast : (p ++ injectedTail).getLast? = some 5.4 := by
    rw [List.getLast?_append_of_ne_nil _ (by simp [injectedTail])]; rfl
  refine ⟨?_, ?_, ?_, ?_, ?_⟩
  · simpa only [evaluate_alarm] using hwin
  · simp only [evaluate_alarm]
    rw [hwin]
    decide
  · simp only [evaluate_alarm]
    rw [hwin]
    decide
  · simpa only [evaluate_alarm] using hlast
  · simp only [evaluate_alarm]
    rw [hlast]
    norm_num [VIB_ML_LIMIT]

set_option maxRecDepth 4096 in
theorem vib_iso_def (ts tn iso ml u : ℕ → ℚ) :
    (generate_fake_data ts tn iso ml u).vib_iso =
      (List.range numDates).map (fun i => clip (4.5 + iso i) 3.5 6.5) := rfl

set_option maxRecDepth 4096 in
theorem vib_ml_def (ts tn iso ml u : ℕ → ℚ) :
    (generate_fake_data ts tn iso ml u).vib_ml =
      ((List.range (numDates - 10)).map (fun i => clip (3.8 + ml i) 3.0 4.8))
        ++ ((List.range 10).map (fun j => VIB_ML_LIMIT + u j)) := rfl

/-- C2: each of the last 10 Vibration-B values of a generated series equals
the limit 5.0 plus the corresponding uniform draw, and (the draws lying in
numpy's documented range `[0.2, 0.8)`) is strictly greater than 5.0,
exceeding the limit by at least 0.2 and at most 0.8. -/
theorem C2_injected_tail_bounds (ts tn iso ml u : ℕ → ℚ)
    (hu : ∀ j, 0.2 ≤ u j ∧ u j < 0.8)
    (i : ℕ) (h1 : numDates - 10 ≤ i) (h2 : i < numDates) :
    (generate_fake_data ts tn iso ml u).vib_ml[i]?
        = some (VIB_ML_LIMIT + u (i - (numDates - 10))) ∧
    5.0 < VIB_ML_LIMIT + u (i - (numDates - 10)) ∧
    0.2 ≤ (VIB_ML_LIMIT + u (i - (numDates - 10))) - 5.0 ∧
    (VIB_ML_LIMIT + u (i - (numDates - 10))) - 5.0 ≤ 0.8 := by
  have hpre : ((List.range (numDates - 10)).map
      (fun i => clip (3.8 + ml i) 3.0 4.8)).length = numDates - 10 := by
    simp
  have hk : i - (numDates - 10) < 10 := by
    unfold numDates dateRangeHourlyLen at h1 h2 ⊢
    omega
  have hgv : (generate_fake_data ts tn iso ml u).vib_ml[i]?
      = some (VIB_ML_LIMIT + u (i - (numDates - 10))) := by
    rw [vib_ml_def]
    rw [List.getElem?_append_right (by rw [hpre]; exact h1)]
    rw [hpre, List.getElem?_map, List.getElem?_range hk]
    rfl
  obtain ⟨hu1, hu2⟩ := hu (i - (numDates - 10))
  refine ⟨hgv, ?_, ?_, ?_⟩ <;> unfold VIB_ML_LIMIT <;> norm_num <;> linarith

theorem C2_injected_tail_bounds_witness :
    (generate_fake_data zfun zfun zfun zfun (fun _ => (0.5 : ℚ))).vib_ml[715]?
        = some (VIB_ML_LIMIT + (0.5 : ℚ)) ∧
    5.0 < VIB_ML_LIMIT + (0.5 : ℚ) ∧
    0.2 ≤ (VIB_ML_LIMIT + (0.5 : ℚ)) - 5.0 ∧
    (VIB_ML_LIMIT + (0.5 : ℚ)) - 5.0 ≤ 0.8 :=
  C2_injected_tail_bounds zfun zfun zfun zfun (fun _ => (0.5 : ℚ))
    (fun _ => by norm_num) 715 (by decide) (by decide)

/-- C3: `is_alarm` is true iff some flag in the trailing 10-sample window is
true; on an all-at-or-below-limit series, `is_alarm = false` and
`breach_count = 0`. -/
theorem C3_alarm_iff_any (vib : List ℚ) (limit : ℚ) :
    ((evaluate_alarm vib limit 10).is_alarm = true ↔
      ∃ b ∈ trailingWindow (above_threshold vib limit) 10, b = true) ∧
    ((∀ x ∈ vib, x ≤ limit) →
      (evaluate_alarm vib limit 10).is_alarm = false ∧
      (evaluate_alarm vib limit 10).breach_count = 0) := by
  constructor
  · simp [evaluate_alarm, List.any_eq_true]
  · intro hall
    have hfalse : ∀ b ∈ trailingWindow (above_threshold vib limit) 10,
        b = false := by
      intro b hb
      have hb' : b ∈ above_threshold vib limit := List.mem_of_mem_drop hb
      obtain ⟨x, hx, hxb⟩ := List.mem_map.mp hb'
      subst hxb
      simp only [decide_eq_false_iff_not]
      exact not_lt.mpr (hall x hx)
    constructor
    · simp only [evaluate_alarm]
      rw [List.any_eq_false]
      intro b hb
      rw [hfalse b hb]
      simp
    · simp only [evaluate_alarm]
      have hnil : (trailingWindow (above_threshold vib limit) 10).filter id
          = [] :=
        List.filter_eq_nil_iff.mpr (fun b hb => by rw [hfalse b hb]; simp)
      rw [hnil]
      rfl

theorem C3_alarm_iff_any_witness :
    (evaluate_alarm [(1 : ℚ)] 5 10).is_alarm = false ∧
    (evaluate_alarm [(1 : ℚ)] 5 10).breach_count = 0 :=
  (C3_alarm_iff_any [(1 : ℚ)] 5).2 (by intro x hx; simp at hx; norm_num [hx])

/-- C4: the per-sample flag at index i is `decide (limit < reading[i])`
(strict comparison); a reading exactly equal to the limit is not flagged. -/
theorem C4_flag_strict (vib : List ℚ) (limit : ℚ) (i : ℕ) (h : i < vib.length) :
    (evaluate_alarm vib limit 10).flags[i]? = some (decide (limit < vib[i])) ∧
    (vib[i] = limit → (evaluate_alarm vib limit 10).flags[i]? = some false) := by
  have hflag : (evaluate_alarm vib limit 10).flags[i]?
      = some (decide (limit < vib[i])) := by
    simp only [evaluate_alarm, above_threshold]
    rw [List.getElem?_map, List.getElem?_eq_getElem h]
    rfl
  refine ⟨hflag, fun heq => ?_⟩
  rw [hflag, heq]
  simp

theorem C4_flag_strict_witness :
    (evaluate_alarm [(5 : ℚ)] 5 10).flags[0]? = some false :=
  (C4_flag_strict [(5 : ℚ)] 5 0 (by decide)).2 rfl

/-- C6: every Vibration-A value of a generated series lies in `[3.5, 6.5]`,
and every Vibration-B value except the last 10 lies in `[3.0, 4.8]`. -/
theorem C6_channel_bounds (ts tn iso ml u : ℕ → ℚ) :
    (∀ x ∈ (generate_fake_data ts tn iso ml u).vib_iso, 3.5 ≤ x ∧ x ≤ 6.5) ∧
    (∀ x ∈ (generate_fake_data ts tn iso ml u).vib_ml.take (numDates - 10),
      3.0 ≤ x ∧ x ≤ 4.8) := by
  constructor
  · intro x hx
    rw [vib_iso_def] at hx
    obtain ⟨i, _, hix⟩ := List.mem_map.mp hx
    exact hix ▸ clip_bounds _ _ _ (by norm_num)
  · intro x hx
    rw [vib_ml_def, List.take_left' (by simp)] at hx
    obtain ⟨i, _, hix⟩ := List.mem_map.mp hx
    exact hix ▸ clip_bounds _ _ _ (by norm_num)

theorem C6_channel_bounds_witness :
    (3.5 : ℚ) ≤ clip (4.5 + zfun 0) 3.5 6.5 ∧ clip (4.5 + zfun 0) 3.5 6.5 ≤ 6.5 :=
  (C6_channel_bounds zfun zfun zfun zfun zfun).1 _ (by
    rw [vib_iso_def]
    exact List.mem_map.mpr ⟨0, List.mem_range.mpr (by decide), rfl⟩)

/-- C7: on a series with fewer than 10 samples the trailing window is the
whole series, and the evaluation is computed over exactly those flags. -/
theorem C7_small_series (vib : List ℚ) (limit : ℚ) (h : vib.length < 10) :
    trailingWindow (above_threshold vib limit) 10 = above_threshold vib limit ∧
    (evaluate_alarm vib limit 10).is_alarm = (above_threshold vib limit).any id ∧
    (evaluate_alarm vib limit 10).breach_count
        = ((above_threshold vib limit).filter id).length := by
  have hw : trailingWindow (above_threshold vib limit) 10
      = above_threshold vib limit := by
    unfold trailingWindow
    rw [length_above_threshold, Nat.sub_eq_zero_of_le (le_of_lt h)]
    exact List.drop_zero _
  refine ⟨hw, ?_, ?_⟩ <;> simp only [evaluate_alarm] <;> rw [hw]

theorem C7_small_series_witness :
    trailingWindow (above_threshold [(6 : ℚ)] 5) 10 = above_threshold [(6 : ℚ)] 5 ∧
    (evaluate_alarm [(6 : ℚ)] 5 10).is_alarm = (above_threshold [(6 : ℚ)] 5).any id ∧
    (evaluate_alarm [(6 : ℚ)] 5 10).breach_count
        = ((above_threshold [(6 : ℚ)] 5).filter id).length :=
  C7_small_series [(6 : ℚ)] 5 (by decide)

/-- C8: alarm evaluation is a pure function of its inputs: equal series,
limit and window give identical results in every field. -/
theorem C8_evaluate_alarm_pure (v1 v2 : List ℚ) (l1 l2 : ℚ) (w1 w2 : ℕ)
    (hv : v1 = v2) (hl : l1 = l2) (hw : w1 = w2) :
    evaluate_alarm v1 l1 w1 = evaluate_alarm v2 l2 w2 := by
  rw [hv, hl, hw]

theorem C8_evaluate_alarm_pure_witness :
    evaluate_alarm [(6 : ℚ)] 5 10 = evaluate_alarm [(6 : ℚ)] 5 10 :=
  C8_evaluate_alarm_pure [(6 : ℚ)] [(6 : ℚ)] 5 5 10 10 rfl rfl rfl

/-- C9: the selected equipment page has no effect on series generation:
with the same explicit random draws, any two pages give identical series. -/
theorem C9_page_independent (p1 p2 : String) (_h1 : p1 ∈ pages) (_h2 : p2 ∈ pages)
    (ts tn iso ml u : ℕ → ℚ) :
    page_series p1 ts tn iso ml u = page_series p2 ts tn iso ml u := rfl

theorem C9_page_independent_witness :
    page_series "Motor 1" zfun zfun zfun zfun zfun
      = page_series "Motor 2" zfun zfun zfun zfun zfun :=
  C9_page_independent "Motor 1" "Motor 2" (by simp [pages]) (by simp [pages])
    zfun zfun zfun zfun zfun

/-- C10: every generated series triggers the alarm: the 10 injected tail
values strictly exceed the limit, so `is_alarm = true` and
`breach_count = 10`. -/
theorem C10_always_alarm (ts tn iso ml u : ℕ → ℚ)
    (hu : ∀ j, 0.2 ≤ u j ∧ u j < 0.8) :
    (evaluate_alarm (generate_fake_data ts tn iso ml u).vib_ml
        VIB_ML_LIMIT 10).is_alarm = true ∧
    (evaluate_alarm (generate_fake_data ts tn iso ml u).vib_ml
        VIB_ML_LIMIT 10).breach_count = 10 := by
  have htail : ∀ b ∈ above_threshold
      ((List.range 10).map (fun j => VIB_ML_LIMIT + u j)) VIB_ML_LIMIT,
      b = true := by
    intro b hb
    obtain ⟨x, hx, hxb⟩ := List.mem_map.mp hb
    obtain ⟨j, _, hjx⟩ := List.mem_map.mp hx
    subst hxb
    subst hjx
    simp only [decide_eq_true_iff]
    have := (hu j).1
    unfold VIB_ML_LIMIT
    norm_num
    linarith
  have hwlen : (above_threshold
      ((List.range 10).map (fun j => VIB_ML_LIMIT + u j)) VIB_ML_LIMIT).length
      = 10 := by
    rw [length_above_threshold]
    simp
  have hrep : trailingWindow
      (above_threshold (generate_fake_data ts tn iso ml u).vib_ml VIB_ML_LIMIT) 10
      = List.replicate 10 true := by
    rw [vib_ml_def, above_threshold_append, trailingWindow_append _ _ _ hwlen]
    exact List.eq_replicate_iff.mpr ⟨hwlen, htail⟩
  constructor <;> simp only [evaluate_alarm] <;> rw [hrep] <;> decide

theorem C10_always_alarm_witness :
    (evaluate_alarm (generate_fake_data zfun zfun zfun zfun
        (fun _ => (0.5 : ℚ))).vib_ml VIB_ML_LIMIT 10).is_alarm = true ∧
    (evaluate_alarm (generate_fake_data zfun zfun zfun zfun
        (fun _ => (0.5 : ℚ))).vib_ml VIB_ML_LIMIT 10).breach_count = 10 :=
  C10_always_alarm zfun zfun zfun zfun (fun _ => (0.5 : ℚ)) (fun _ => by norm_num)

/-- C5: every generated series has exactly 721 samples in each channel,
which is the number of hourly steps from 2023-01-01 to 2023-01-31
inclusive. -/
theorem C5_series_length (ts tn iso ml u : ℕ → ℚ) :
    (generate_fake_data ts tn iso ml u).temperature.length = 721 ∧
    (generate_fake_data ts tn iso ml u).vib_iso.length = 721 ∧
    (generate_fake_data ts tn iso ml u).vib_ml.length = 721 ∧
    numDates = 721 ∧ dateRangeHourlyLen 0 30 = 721 := by
  refine ⟨?_, ?_, ?_, by decide, by decide⟩ <;>
    simp [generate_fake_data, numDates, dateRangeHourlyLen]

end DemoMaquette
